import Mathlib

/-!
Verification of the `pulumiOverHttp-ts` HTTP deployment server
(`src/nodejs/pulumiOverHttp-ts/index.ts`) against its design specification.

The handler layer (the code under verification) is translated directly from
the TypeScript source.  The provisioning engine (`LocalWorkspace` stacks,
`up`, `destroy`, `removeStack`, `setConfig`) is an external collaborator of
the repository; it is modelled from the specification's collaborator
interface (spec section 6) and concurrency-guard contract (spec sections
4.3 and 5).  Handlers additionally record the trace of engine calls they
issue, so that claims about *which* engine calls happen (and in what order)
are statable.
-/

namespace PulumiOverHttp

/-- Error values thrown by the engine SDK and by JavaScript evaluation,
as discriminated by the handlers' `instanceof` checks:
`StackAlreadyExistsError`, `StackNotFoundError`, `ConcurrentUpdateError`,
a JavaScript `TypeError` (reading a property of `undefined`), and any
other engine failure. -/
inductive JsError where
  | stackAlreadyExists (msg : String)
  | stackNotFound (msg : String)
  | concurrentUpdate (msg : String)
  | typeError (msg : String)
  | engineFailure (msg : String)
  deriving DecidableEq

/-- Body of an HTTP response: the `res.json({id, url})` shape, the
`res.json({ids})` shape, a plain text body from `res.send(string)`, an
error payload from `res.send(e)`, and the empty body from `res.end()`. -/
inductive HttpBody where
  | jsonIdUrl (id url : String)
  | jsonIds (ids : List String)
  | text (s : String)
  | errorDetail (e : JsError)
  | empty
  deriving DecidableEq

/-- An HTTP response: status code and body. -/
structure HttpResponse where
  status : Nat
  body : HttpBody
  deriving DecidableEq

/-- Calls into the provisioning engine, as issued by the handlers
(spec section 6 collaborator interface). -/
inductive EngineCall where
  | createStackCall (name : String)
  | selectStackCall (name : String)
  | setConfigCall (key value : String)
  | upCall (name : String)
  | outputsCall (name : String)
  | destroyCall (name : String)
  | removeStackCall (name : String)
  | listStacksCall
  deriving DecidableEq

/-- Modelled from the spec: the engine-side record for one stack.
`content` is the content whose program was last successfully applied
(`none` before the first successful apply); `outputs` is the output map
produced by the last successful apply (spec section 3: outputs populated
only once at least one apply succeeded). -/
structure StackRecord where
  content : Option String
  outputs : List (String × String)
  deriving DecidableEq

/-- Modelled from the spec: the engine's own bookkeeping, a registry of
named stacks in registration order (spec section 4.1: the registry is the
engine's state, `list` returns engine-reported order). -/
structure EngineState where
  stackList : List (String × StackRecord)
  deriving DecidableEq

/-- Outcome chosen by the (opaque) engine for a fallible `up`/`destroy`
call: the call either succeeds or throws the given error.  Handlers are
parameterized by this outcome because the engine is an external
collaborator whose failures are adversarial inputs (spec section 7:
`EngineFailure` is an opaque provisioning error). -/
inductive EngineOutcome where
  | ok
  | err (e : JsError)
  deriving DecidableEq

/-- Module-scope environment visible to `createPulumiProgram` in the
source file: the only module-level data binding in scope is the constant
`projectName`.  It is threaded explicitly so that independence from
ambient state is statable. -/
structure ModuleEnv where
  projectName : String
  deriving DecidableEq

/-- The module-level constant `projectName = "pulumi_over_http"`. -/
def moduleEnv : ModuleEnv := { projectName := "pulumi_over_http" }

/-- The declarative resource topology built by `createPulumiProgram` in
the source: a resource group, a CDN profile, a storage account, a static
website, a blob holding the caller's content, a CDN endpoint, and the
`websiteUrl` output.  Fields record the literal arguments of each
`new ...` resource constructor in the source. -/
structure ProvisioningProgram where
  resourceGroupLogicalName : String
  profileLogicalName : String
  profileSkuName : String
  storageAccountLogicalName : String
  enableHttpsTrafficOnly : Bool
  storageKind : String
  storageSkuName : String
  staticWebsiteLogicalName : String
  staticWebsiteIndexDocument : String
  blobLogicalName : String
  blobSource : String
  blobContentType : String
  endpointLogicalName : String
  isHttpAllowed : Bool
  isHttpsAllowed : Bool
  endpointHttpsPort : Nat
  originLogicalName : String
  queryStringCachingBehavior : String
  outputNames : List String
  deriving DecidableEq

/-- Translation of `createPulumiProgram` from the source: every resource
name and argument is a literal except the blob's `source`, which is the
caller-supplied `content`; the program returns the single output
`websiteUrl`.  The environment argument makes the module scope explicit;
the source body never reads it. -/
def createPulumiProgram (env : ModuleEnv) (content : String) : ProvisioningProgram :=
  { resourceGroupLogicalName := "resourceGroup"
    profileLogicalName := "profile"
    profileSkuName := "Standard_Microsoft"
    storageAccountLogicalName := "storageaccount"
    enableHttpsTrafficOnly := true
    storageKind := "StorageV2"
    storageSkuName := "Standard_LRS"
    staticWebsiteLogicalName := "staticWebsite"
    staticWebsiteIndexDocument := "index.html"
    blobLogicalName := "index.html"
    blobSource := content
    blobContentType := "text/html"
    endpointLogicalName := "endpoint"
    isHttpAllowed := false
    isHttpsAllowed := true
    endpointHttpsPort := 443
    originLogicalName := "origin-storage-account"
    queryStringCachingBehavior := "NotSet"
    outputNames := ["websiteUrl"] }

/-- Look up a stack by name in the engine registry. -/
def lookupStack (s : EngineState) (name : String) : Option StackRecord :=
  (s.stackList.find? (fun p => p.1 = name)).map Prod.snd

/-- Modelled from the spec: `createNamedDeployment` — registering a fresh
stack fails with `StackAlreadyExistsError` when the name is taken,
otherwise appends an empty record (spec section 6:
`createNamedDeployment(id, namespace, program) -> Handle | AlreadyExists`). -/
def engineCreateStack (s : EngineState) (name : String) :
    Except JsError EngineState :=
  match lookupStack s name with
  | some _ => .error (.stackAlreadyExists name)
  | none => .ok ⟨s.stackList ++ [(name, ⟨none, []⟩)]⟩

/-- Modelled from the spec: `selectNamedDeployment` — selecting an existing
stack fails with `StackNotFoundError` when absent, otherwise returns its
record and leaves the state unchanged (spec section 6:
`selectNamedDeployment(id, namespace, program) -> Handle | NotFound`). -/
def engineSelectStack (s : EngineState) (name : String) :
    Except JsError StackRecord :=
  match lookupStack s name with
  | some r => .ok r
  | none => .error (.stackNotFound name)

/-- Replace the record of stack `name` (no-op when absent). -/
def engineUpdateRecord (s : EngineState) (name : String) (r : StackRecord) :
    EngineState :=
  ⟨s.stackList.map (fun p => if p.1 = name then (p.1, r) else p)⟩

/-- Modelled from the spec: the externally-reachable URL the engine
assigns to a deployment's CDN endpoint output (spec section 3: outputs
include at minimum an externally-reachable URL). -/
def engineEndpointUrl (name : String) : String :=
  "https://cdn-endpnt-" ++ name ++ ".azureedge.net/"

/-- Modelled from the spec: `apply` — on success the stack's record is
replaced with the applied program's content and declared outputs and the
output map is returned; on an engine-chosen failure the error is thrown
and the state is unchanged (spec section 4.4: a failed apply leaves the
deployment in its prior observable state). -/
def engineUpRun (s : EngineState) (name : String) (prog : ProvisioningProgram)
    (outcome : EngineOutcome) :
    Except JsError (EngineState × List (String × String)) :=
  match outcome with
  | .err e => .error e
  | .ok =>
    let outs := prog.outputNames.map (fun n => (n, engineEndpointUrl name))
    .ok (engineUpdateRecord s name ⟨some prog.blobSource, outs⟩, outs)

/-- Modelled from the spec: `destroy` — on success all resources of the
stack are torn down (record reset, outputs gone); on an engine-chosen
failure the error is thrown and the state is unchanged. -/
def engineDestroyRun (s : EngineState) (name : String)
    (outcome : EngineOutcome) : Except JsError EngineState :=
  match outcome with
  | .err e => .error e
  | .ok => .ok (engineUpdateRecord s name ⟨none, []⟩)

/-- Modelled from the spec: `removeDeployment` — unregister the stack
name from the engine registry. -/
def engineRemoveStack (s : EngineState) (name : String) : EngineState :=
  ⟨s.stackList.filter (fun p => p.1 ≠ name)⟩

/-- JavaScript member access `outs.KEY.value` on an outputs map: when the
key is absent, `outs.KEY` is `undefined` and reading `.value` throws a
`TypeError`. -/
def jsAccess (outs : List (String × String)) (key : String) :
    Except JsError String :=
  match outs.find? (fun p => p.1 = key) with
  | some p => .ok p.2
  | none => .error (.typeError "Cannot read properties of undefined")

/-- Result of one handler invocation: the HTTP response sent, the engine
state afterwards, and the trace of engine calls the handler issued. -/
structure HandlerResult where
  resp : HttpResponse
  state : EngineState
  calls : List EngineCall
  deriving DecidableEq

/-- The `catch` block of `createHandler`: `StackAlreadyExistsError` maps
to 409 with a text body, everything else to 500 carrying the error. -/
def createCatch (stackName : String) (e : JsError) : HttpResponse :=
  match e with
  | .stackAlreadyExists _ =>
    ⟨409, .text ("stack \"" ++ stackName ++ "\" already exists")⟩
  | _ => ⟨500, .errorDetail e⟩

/-- The `catch` block of `getHandler`: `StackNotFoundError` maps to 404,
everything else to 500. -/
def getCatch (stackName : String) (e : JsError) : HttpResponse :=
  match e with
  | .stackNotFound _ =>
    ⟨404, .text ("stack \"" ++ stackName ++ "\" does not exist")⟩
  | _ => ⟨500, .errorDetail e⟩

/-- The `catch` block of `updateHandler`: `StackNotFoundError` maps to
404, `ConcurrentUpdateError` to 409, everything else to 500. -/
def updateCatch (stackName : String) (e : JsError) : HttpResponse :=
  match e with
  | .stackNotFound _ =>
    ⟨404, .text ("stack \"" ++ stackName ++ "\" does not exist")⟩
  | .concurrentUpdate _ =>
    ⟨409, .text ("stack \"" ++ stackName ++ "\" already has update in progress")⟩
  | _ => ⟨500, .errorDetail e⟩

/-- The `catch` block of `deleteHandler` (textually identical to the one
of `updateHandler` in the source). -/
def deleteCatch (stackName : String) (e : JsError) : HttpResponse :=
  match e with
  | .stackNotFound _ =>
    ⟨404, .text ("stack \"" ++ stackName ++ "\" does not exist")⟩
  | .concurrentUpdate _ =>
    ⟨409, .text ("stack \"" ++ stackName ++ "\" already has update in progress")⟩
  | _ => ⟨500, .errorDetail e⟩

/-- Translation of `createHandler`: `LocalWorkspace.createStack` with a
program generated from the POST body, then `setConfig("aws:region",
us-west-2)`, then `stack.up`, then `res.json({id, url:
upRes.outputs.websiteUrl.value})`; errors fall to `createCatch`. -/
def createHandler (s : EngineState) (stackName content : String)
    (up : EngineOutcome) : HandlerResult :=
  match engineCreateStack s stackName with
  | .error e => ⟨createCatch stackName e, s, [.createStackCall stackName]⟩
  | .ok s1 =>
    let prog := createPulumiProgram moduleEnv content
    let calls : List EngineCall :=
      [.createStackCall stackName, .setConfigCall "aws:region" "us-west-2",
       .upCall stackName]
    match engineUpRun s1 stackName prog up with
    | .error e => ⟨createCatch stackName e, s1, calls⟩
    | .ok (s2, outs) =>
      match jsAccess outs "websiteUrl" with
      | .ok url => ⟨⟨200, .jsonIdUrl stackName url⟩, s2, calls⟩
      | .error e => ⟨createCatch stackName e, s2, calls⟩

/-- Translation of `listHandler`: list the stacks of the workspace and
respond `res.json({ids})` in engine order. -/
def listHandler (s : EngineState) : HandlerResult :=
  ⟨⟨200, .jsonIds (s.stackList.map Prod.fst)⟩, s, [.listStacksCall]⟩

/-- Translation of `getHandler`: `LocalWorkspace.selectStack` with an
empty program, then `stack.outputs()`, then `res.json({id, url:
outs.websiteUrl.value})`; errors fall to `getCatch`. -/
def getHandler (s : EngineState) (stackName : String) : HandlerResult :=
  match engineSelectStack s stackName with
  | .error e => ⟨getCatch stackName e, s, [.selectStackCall stackName]⟩
  | .ok r =>
    let calls : List EngineCall :=
      [.selectStackCall stackName, .outputsCall stackName]
    match jsAccess r.outputs "websiteUrl" with
    | .ok url => ⟨⟨200, .jsonIdUrl stackName url⟩, s, calls⟩
    | .error e => ⟨getCatch stackName e, s, calls⟩

/-- Translation of `updateHandler`: `LocalWorkspace.selectStack` with a
program generated from the request body, then `setConfig("aws:region",
us-west-2)`, then `stack.up`, then `res.json({id, url})`; errors fall to
`updateCatch`. -/
def updateHandler (s : EngineState) (stackName content : String)
    (up : EngineOutcome) : HandlerResult :=
  match engineSelectStack s stackName with
  | .error e => ⟨updateCatch stackName e, s, [.selectStackCall stackName]⟩
  | .ok _ =>
    let prog := createPulumiProgram moduleEnv content
    let calls : List EngineCall :=
      [.selectStackCall stackName, .setConfigCall "aws:region" "us-west-2",
       .upCall stackName]
    match engineUpRun s stackName prog up with
    | .error e => ⟨updateCatch stackName e, s, calls⟩
    | .ok (s2, outs) =>
      match jsAccess outs "websiteUrl" with
      | .ok url => ⟨⟨200, .jsonIdUrl stackName url⟩, s2, calls⟩
      | .error e => ⟨updateCatch stackName e, s2, calls⟩

/-- Translation of `deleteHandler`: `LocalWorkspace.selectStack` with an
empty program, then `stack.destroy`, then
`stack.workspace.removeStack(stackName)`, then `res.status(200).end()`;
errors fall to `deleteCatch`. -/
def deleteHandler (s : EngineState) (stackName : String)
    (destroyOutcome : EngineOutcome) : HandlerResult :=
  match engineSelectStack s stackName with
  | .error e => ⟨deleteCatch stackName e, s, [.selectStackCall stackName]⟩
  | .ok _ =>
    match engineDestroyRun s stackName destroyOutcome with
    | .error e =>
      ⟨deleteCatch stackName e, s,
       [.selectStackCall stackName, .destroyCall stackName]⟩
    | .ok s2 =>
      let s3 := engineRemoveStack s2 stackName
      ⟨⟨200, .empty⟩, s3,
       [.selectStackCall stackName, .destroyCall stackName,
        .removeStackCall stackName]⟩

/-!
Interleaving model for two concurrent `PUT /sites/:id` requests on the
same, existing stack.  Each request runs the `updateHandler` body: select
the stack and set the config (no lock interaction), then call `stack.up`.
The engine holds a per-stack lock for the duration of an `up` run
(spec sections 4.3 and 5: `tryAcquire` is non-blocking; a second mutating
request arriving while one is in flight gets `ConcurrentUpdateError`
immediately, never queued).  The handler maps that error to 409 via its
`catch` block (`updateCatch`).
-/

/-- Phase of one in-flight update request: about to select the stack,
selected and configured (about to call `up`), inside the engine's `up`
call (holding the per-stack lock), or finished with a response sent. -/
inductive UPhase where
  | start
  | ready
  | applying
  | done (resp : HttpResponse)
  deriving DecidableEq

/-- Joint state of two update requests for the same stack plus the
engine's per-stack update lock. -/
structure USys where
  a : UPhase
  b : UPhase
  lock : Bool
  deriving DecidableEq

/-- Response sent by an update request whose `up` call ran: `res.json`
with the engine URL on success, the handler's `catch` mapping of the
engine failure (500) otherwise. -/
def finishResp (stackName : String) (ok : Bool) (msg : String) : HttpResponse :=
  if ok then ⟨200, .jsonIdUrl stackName (engineEndpointUrl stackName)⟩
  else updateCatch stackName (.engineFailure msg)

/-- Response sent by an update request whose `up` call was rejected by
the engine with `ConcurrentUpdateError`: the handler's `catch` maps it
to 409. -/
def conflictResp (stackName : String) : HttpResponse :=
  updateCatch stackName (.concurrentUpdate stackName)

/-- One atomic step of a single update request.  `start → ready` is the
select-and-configure part; at `ready` the request calls `up`, which
either acquires the engine's per-stack lock (entering `applying`) or is
rejected immediately with `ConcurrentUpdateError` (responding 409, spec
section 4.3: non-blocking, never queued); at `applying`, `up` runs to
completion, releases the lock, and the handler responds.  A finished
request takes no further step. -/
def stepOne (stackName : String) (ok : Bool) (msg : String) (lock : Bool) :
    UPhase → UPhase × Bool
  | .start => (.ready, lock)
  | .ready =>
    if lock then (.done (conflictResp stackName), lock)
    else (.applying, true)
  | .applying => (.done (finishResp stackName ok msg), false)
  | .done r => (.done r, lock)

/-- One scheduler step of the joint system: `true` lets request A step,
`false` lets request B step. -/
def ustep (stackName : String) (okA okB : Bool) (msgA msgB : String)
    (s : USys) (turn : Bool) : USys :=
  if turn then
    let pr := stepOne stackName okA msgA s.lock s.a
    ⟨pr.1, s.b, pr.2⟩
  else
    let pr := stepOne stackName okB msgB s.lock s.b
    ⟨s.a, pr.1, pr.2⟩

/-- Run the joint system under a schedule (a list of turns). -/
def urun (stackName : String) (okA okB : Bool) (msgA msgB : String)
    (s : USys) : List Bool → USys
  | [] => s
  | t :: ts => urun stackName okA okB msgA msgB
      (ustep stackName okA okB msgA msgB s t) ts

/-- Initial joint state: both requests about to run, lock free. -/
def uinit : USys := ⟨.start, .start, false⟩

/-- Invariant of the two-update system: the lock is held exactly when one
request is applying, the two requests are never applying simultaneously,
every finished request responded either with its own `up` outcome or with
the conflict response, and the two requests never both responded with the
conflict response. -/
def UInv (stackName : String) (okA okB : Bool) (msgA msgB : String)
    (s : USys) : Prop :=
  (s.lock = true ↔ (s.a = .applying ∨ s.b = .applying))
  ∧ ¬(s.a = .applying ∧ s.b = .applying)
  ∧ (∀ r, s.a = .done r →
      r = finishResp stackName okA msgA ∨ r = conflictResp stackName)
  ∧ (∀ r, s.b = .done r →
      r = finishResp stackName okB msgB ∨ r = conflictResp stackName)
  ∧ ¬(s.a = .done (conflictResp stackName) ∧ s.b = .done (conflictResp stackName))

/-- A finished update's normal response is never the conflict response
(its status is 200 or 500, not 409). -/
theorem finishResp_ne_conflictResp (stackName : String) (ok : Bool) (msg : String) :
    finishResp stackName ok msg ≠ conflictResp stackName := by
  cases ok <;> simp [finishResp, conflictResp, updateCatch]

/-- Status of the normal response: 200 on success, 500 on engine failure. -/
theorem finishResp_status (stackName : String) (ok : Bool) (msg : String) :
    (finishResp stackName ok msg).status = if ok then 200 else 500 := by
  cases ok <;> simp [finishResp, updateCatch]

/-- The invariant holds initially. -/
theorem uinv_init (stackName : String) (okA okB : Bool) (msgA msgB : String) :
    UInv stackName okA okB msgA msgB uinit := by
  simp [UInv, uinit]

/-- The invariant is preserved by every scheduler step. -/
theorem uinv_step (stackName : String) (okA okB : Bool) (msgA msgB : String)
    (s : USys) (turn : Bool)
    (h : UInv stackName okA okB msgA msgB s) :
    UInv stackName okA okB msgA msgB (ustep stackName okA okB msgA msgB s turn) := by
  rcases s with ⟨a, b, lock⟩
  cases turn <;> cases a <;> cases b <;> cases lock <;>
    simp_all [UInv, ustep, stepOne, finishResp_ne_conflictResp,
      Ne.symm (finishResp_ne_conflictResp stackName okA msgA),
      Ne.symm (finishResp_ne_conflictResp stackName okB msgB)]

/-- The invariant is preserved by every run. -/
theorem uinv_run (stackName : String) (okA okB : Bool) (msgA msgB : String)
    (sched : List Bool) (s : USys)
    (h : UInv stackName okA okB msgA msgB s) :
    UInv stackName okA okB msgA msgB (urun stackName okA okB msgA msgB s sched) := by
  induction sched generalizing s with
  | nil => exact h
  | cons t ts ih =>
    exact ih _ (uinv_step stackName okA okB msgA msgB s t h)

/-- Running a concatenated schedule runs the two parts in sequence. -/
theorem urun_append (stackName : String) (okA okB : Bool) (msgA msgB : String)
    (l1 l2 : List Bool) (s : USys) :
    urun stackName okA okB msgA msgB s (l1 ++ l2)
      = urun stackName okA okB msgA msgB
          (urun stackName okA okB msgA msgB s l1) l2 := by
  induction l1 generalizing s with
  | nil => rfl
  | cons t ts ih => simp [urun, ih]

/-- A finished request A stays finished with the same response. -/
theorem urun_done_a (stackName : String) (okA okB : Bool) (msgA msgB : String)
    (sched : List Bool) (s : USys) (r : HttpResponse) (h : s.a = .done r) :
    (urun stackName okA okB msgA msgB s sched).a = .done r := by
  induction sched generalizing s with
  | nil => exact h
  | cons t ts ih =>
    apply ih
    rcases s with ⟨a, b, lock⟩
    cases t <;> simp_all [ustep, stepOne]

/-- A finished request B stays finished with the same response. -/
theorem urun_done_b (stackName : String) (okA okB : Bool) (msgA msgB : String)
    (sched : List Bool) (s : USys) (r : HttpResponse) (h : s.b = .done r) :
    (urun stackName okA okB msgA msgB s sched).b = .done r := by
  induction sched generalizing s with
  | nil => exact h
  | cons t ts ih =>
    apply ih
    rcases s with ⟨a, b, lock⟩
    cases t <;> simp_all [ustep, stepOne]

/-- C1: for two concurrent `update(id, ...)` requests on the same
existing stack, under every schedule: (i) the engine's `up` call is never
executing for both requests simultaneously; (ii) and (iii) a request that
attempts `up` while the other request's `up` is in flight transitions in
that very step to a sent 409 conflict response (rejected immediately,
neither queued nor dropped); (iv) when both requests have finished, they
never both received the conflict outcome, and whenever one was rejected
with the conflict response the other proceeded through `up` on its own
merits (responding 200 on success or 500 on its own engine failure). -/
theorem concurrent_updates_exclusive_conflict
    (stackName : String) (okA okB : Bool) (msgA msgB : String)
    (sched : List Bool) :
    (∀ n, ¬((urun stackName okA okB msgA msgB uinit (sched.take n)).a = UPhase.applying
        ∧ (urun stackName okA okB msgA msgB uinit (sched.take n)).b = UPhase.applying))
    ∧ (∀ n, (urun stackName okA okB msgA msgB uinit (sched.take n)).a = UPhase.applying →
        (urun stackName okA okB msgA msgB uinit (sched.take n)).b = UPhase.ready →
        sched[n]? = some false →
        (urun stackName okA okB msgA msgB uinit (sched.take (n + 1))).b
          = UPhase.done (conflictResp stackName)
        ∧ (conflictResp stackName).status = 409)
    ∧ (∀ n, (urun stackName okA okB msgA msgB uinit (sched.take n)).b = UPhase.applying →
        (urun stackName okA okB msgA msgB uinit (sched.take n)).a = UPhase.ready →
        sched[n]? = some true →
        (urun stackName okA okB msgA msgB uinit (sched.take (n + 1))).a
          = UPhase.done (conflictResp stackName)
        ∧ (conflictResp stackName).status = 409)
    ∧ (∀ ra rb, (urun stackName okA okB msgA msgB uinit sched).a = UPhase.done ra →
        (urun stackName okA okB msgA msgB uinit sched).b = UPhase.done rb →
        ¬(ra.status = 409 ∧ rb.status = 409)
        ∧ (rb = conflictResp stackName →
            ra = finishResp stackName okA msgA ∧ (ra.status = 200 ∨ ra.status = 500))
        ∧ (ra = conflictResp stackName →
            rb = finishResp stackName okB msgB ∧ (rb.status = 200 ∨ rb.status = 500))) := by
  have hinv : ∀ l : List Bool,
      UInv stackName okA okB msgA msgB (urun stackName okA okB msgA msgB uinit l) :=
    fun l => uinv_run stackName okA okB msgA msgB l uinit
      (uinv_init stackName okA okB msgA msgB)
  refine ⟨fun n => (hinv (sched.take n)).2.1, ?_, ?_, ?_⟩
  · intro n ha hb hget
    have hlock : (urun stackName okA okB msgA msgB uinit (sched.take n)).lock = true :=
      (hinv (sched.take n)).1.mpr (Or.inl ha)
    have htake : sched.take (n + 1) = sched.take n ++ [false] := by
      rw [List.take_succ, hget] ; rfl
    rw [htake, urun_append]
    constructor
    · show (urun stackName okA okB msgA msgB _ [false]).b = _
      simp only [urun, ustep, if_neg Bool.false_ne_true]
      rw [hb, hlock]
      simp [stepOne]
    · rfl
  · intro n hb ha hget
    have hlock : (urun stackName okA okB msgA msgB uinit (sched.take n)).lock = true :=
      (hinv (sched.take n)).1.mpr (Or.inr hb)
    have htake : sched.take (n + 1) = sched.take n ++ [true] := by
      rw [List.take_succ, hget] ; rfl
    rw [htake, urun_append]
    constructor
    · show (urun stackName okA okB msgA msgB _ [true]).a = _
      simp only [urun, ustep, if_pos rfl]
      rw [ha, hlock]
      simp [stepOne]
    · rfl
  · intro ra rb hra hrb
    have h3 := (hinv sched).2.2.1 ra hra
    have h4 := (hinv sched).2.2.2.1 rb hrb
    have h5 := (hinv sched).2.2.2.2
    have hfinA : (finishResp stackName okA msgA).status = 200
        ∨ (finishResp stackName okA msgA).status = 500 := by
      rw [finishResp_status] ; cases okA <;> simp
    have hfinB : (finishResp stackName okB msgB).status = 200
        ∨ (finishResp stackName okB msgB).status = 500 := by
      rw [finishResp_status] ; cases okB <;> simp
    refine ⟨?_, ?_, ?_⟩
    · rintro ⟨h409a, h409b⟩
      rcases h3 with h3 | h3
      · subst h3 ; rcases hfinA with h | h <;> omega
      · rcases h4 with h4 | h4
        · subst h4 ; rcases hfinB with h | h <;> omega
        · exact h5 ⟨h3 ▸ hra, h4 ▸ hrb⟩
    · intro hrbc
      rcases h3 with h3 | h3
      · exact ⟨h3, h3 ▸ hfinA⟩
      · exact absurd ⟨h3 ▸ hra, hrbc ▸ hrb⟩ h5
    · intro hrac
      rcases h4 with h4 | h4
      · exact ⟨h4, h4 ▸ hfinB⟩
      · exact absurd ⟨hrac ▸ hra, h4 ▸ hrb⟩ h5

/-- Witness for C1: under the schedule that lets request A enter `up`
first and then lets request B attempt `up`, request B is rejected in that
step with the 409 conflict response, and the two final responses are not
both conflicts (A finished on its own merits). -/
theorem concurrent_updates_exclusive_conflict_witness :
    (urun "site-a" true true "" "" uinit
        (List.take (3 + 1) [true, true, false, false, true])).b
      = UPhase.done (conflictResp "site-a")
    ∧ ¬((finishResp "site-a" true "").status = 409
        ∧ (conflictResp "site-a").status = 409) := by
  have h := concurrent_updates_exclusive_conflict "site-a" true true "" ""
    [true, true, false, false, true]
  exact ⟨(h.2.1 3 rfl rfl rfl).1,
    (h.2.2.2 (finishResp "site-a" true "") (conflictResp "site-a") rfl rfl).1⟩

/-!
Helper lemmas about the registry, and example states used by witnesses
and counterexamples.
-/

/-- After unregistering a stack, looking it up fails. -/
theorem lookupStack_remove_self (s : EngineState) (id : String) :
    lookupStack (engineRemoveStack s id) id = none := by
  unfold lookupStack engineRemoveStack
  rw [Option.map_eq_none']
  rw [List.find?_eq_none]
  intro a ha
  have := (List.mem_filter.mp ha).2
  simp only [decide_not, Bool.not_eq_true ] at this ⊢
  simpa using this

/-- After unregistering a stack, its name is gone from the listed ids. -/
theorem remove_not_mem_ids (s : EngineState) (id : String) :
    id ∉ (engineRemoveStack s id).stackList.map Prod.fst := by
  intro h
  rcases List.mem_map.mp h with ⟨p, hp, hfst⟩
  have h2 := (List.mem_filter.mp hp).2
  simp at h2
  exact h2 hfst

/-- Registering a fresh stack makes it found with the fresh record. -/
theorem lookupStack_append_fresh (s : EngineState) (id : String) (r : StackRecord)
    (h : lookupStack s id = none) :
    lookupStack ⟨s.stackList ++ [(id, r)]⟩ id = some r := by
  unfold lookupStack at h ⊢
  rw [Option.map_eq_none'] at h
  simp only [List.find?_append, h]
  simp [List.find?]

/-- In a registry where `id` is found, replacing its record makes `find?`
return the replaced entry. -/
theorem find?_update_list (l : List (String × StackRecord)) (id : String)
    (r2 : StackRecord) (h : (l.find? (fun p => p.1 = id)).isSome) :
    (l.map (fun p => if p.1 = id then (p.1, r2) else p)).find? (fun p => p.1 = id)
      = some (id, r2) := by
  induction l with
  | nil => simp [List.find?] at h
  | cons x xs ih =>
    by_cases hx : x.1 = id
    · simp only [List.map_cons, if_pos hx]
      rw [List.find?_cons_of_pos _ (by simpa using hx)]
      simp [hx]
    · simp only [List.map_cons, if_neg hx]
      rw [List.find?_cons_of_neg _ (by simpa using hx)]
      rw [List.find?_cons_of_neg _ (by simpa using hx)] at h
      exact ih h

/-- Replacing the record of a registered stack makes lookup return the
new record. -/
theorem lookupStack_update (s : EngineState) (id : String) (r r2 : StackRecord)
    (h : lookupStack s id = some r) :
    lookupStack (engineUpdateRecord s id r2) id = some r2 := by
  unfold lookupStack at h
  have hfound : (s.stackList.find? (fun p => p.1 = id)).isSome := by
    rcases Option.map_eq_some'.mp h with ⟨p, hp, _⟩
    rw [hp] ; rfl
  unfold lookupStack engineUpdateRecord
  rw [find?_update_list s.stackList id r2 hfound]
  rfl

/-- Example engine state: one deployment `site-a` with applied content
and a populated `websiteUrl` output. -/
def exState : EngineState :=
  ⟨[("site-a", ⟨some "hello", [("websiteUrl", "https://u/")]⟩)]⟩

/-- Example engine state with no deployments. -/
def emptyState : EngineState := ⟨[]⟩

/-- Example engine state: `site-a` is registered but has never completed
a successful apply, so it has no outputs (this is exactly the state a
failed first `up` after `createStack` leaves behind). -/
def noOutputState : EngineState := ⟨[("site-a", ⟨none, []⟩)]⟩

/-- C2: creating an identity that already exists responds 409 with the
already-exists message, and the whole engine state — in particular the
existing deployment's content and outputs — is unchanged. -/
theorem create_on_existing_conflict (s : EngineState) (id c : String)
    (up : EngineOutcome) (r : StackRecord)
    (h : lookupStack s id = some r) :
    (createHandler s id c up).resp
      = ⟨409, .text ("stack \"" ++ id ++ "\" already exists")⟩
    ∧ (createHandler s id c up).state = s
    ∧ lookupStack (createHandler s id c up).state id = some r := by
  simp [createHandler, engineCreateStack, h, createCatch]

/-- Witness for C2: the second create of `site-a` is rejected with 409
and leaves the first deployment's record untouched. -/
theorem create_on_existing_conflict_witness :
    lookupStack exState "site-a"
      = some ⟨some "hello", [("websiteUrl", "https://u/")]⟩
    ∧ ((createHandler exState "site-a" "new" EngineOutcome.ok).resp
        = ⟨409, .text ("stack \"" ++ "site-a" ++ "\" already exists")⟩
      ∧ (createHandler exState "site-a" "new" EngineOutcome.ok).state = exState
      ∧ lookupStack (createHandler exState "site-a" "new" EngineOutcome.ok).state "site-a"
        = some ⟨some "hello", [("websiteUrl", "https://u/")]⟩) :=
  ⟨rfl, create_on_existing_conflict exState "site-a" "new" EngineOutcome.ok
    ⟨some "hello", [("websiteUrl", "https://u/")]⟩ rfl⟩

/-- C3: `get`, `update` and `delete` on an identity that was never
created (or has been removed) all respond 404 and change no state. -/
theorem absent_identity_not_found (s : EngineState) (id c : String)
    (up d : EngineOutcome) (h : lookupStack s id = none) :
    ((getHandler s id).resp
        = ⟨404, .text ("stack \"" ++ id ++ "\" does not exist")⟩
      ∧ (getHandler s id).state = s)
    ∧ ((updateHandler s id c up).resp
        = ⟨404, .text ("stack \"" ++ id ++ "\" does not exist")⟩
      ∧ (updateHandler s id c up).state = s)
    ∧ ((deleteHandler s id d).resp
        = ⟨404, .text ("stack \"" ++ id ++ "\" does not exist")⟩
      ∧ (deleteHandler s id d).state = s) := by
  simp [getHandler, updateHandler, deleteHandler, engineSelectStack, h,
    getCatch, updateCatch, deleteCatch]

/-- Witness for C3: on the empty registry, `get`, `update` and `delete`
of `site-a` all respond 404 and leave the state empty. -/
theorem absent_identity_not_found_witness :
    lookupStack emptyState "site-a" = none
    ∧ (((getHandler emptyState "site-a").resp
        = ⟨404, .text ("stack \"" ++ "site-a" ++ "\" does not exist")⟩
      ∧ (getHandler emptyState "site-a").state = emptyState)
    ∧ (((updateHandler emptyState "site-a" "c" EngineOutcome.ok).resp
        = ⟨404, .text ("stack \"" ++ "site-a" ++ "\" does not exist")⟩
      ∧ (updateHandler emptyState "site-a" "c" EngineOutcome.ok).state = emptyState)
    ∧ ((deleteHandler emptyState "site-a" EngineOutcome.ok).resp
        = ⟨404, .text ("stack \"" ++ "site-a" ++ "\" does not exist")⟩
      ∧ (deleteHandler emptyState "site-a" EngineOutcome.ok).state = emptyState))) :=
  ⟨rfl, absent_identity_not_found emptyState "site-a" "c"
    EngineOutcome.ok EngineOutcome.ok rfl⟩

/-- Counterexample to C4 as stated: rejecting the create of the existing
`site-a` does involve a call into the provisioning engine — the rejection
is produced by the engine's `createStack` call itself (the handler's call
trace is the non-empty `[createStackCall]`), not by a local check made
before any engine call. -/
theorem local_detection_counterexample :
    (createHandler exState "site-a" "new" EngineOutcome.ok).resp.status = 409
    ∧ (createHandler exState "site-a" "new" EngineOutcome.ok).calls
        = [EngineCall.createStackCall "site-a"]
    ∧ ¬((createHandler exState "site-a" "new" EngineOutcome.ok).calls = []) :=
  ⟨rfl, rfl, by decide⟩

/-- C4 (amended): `AlreadyExists`/`NotFound` are detected by the first
engine call itself — `createStack` reports the conflict, `selectStack`
reports not-found — and the rejected request issues no further engine
call: in particular no `apply` (`up`) and no `destroy` is ever attempted
for a rejected request. -/
theorem rejection_before_apply (s1 s2 : EngineState) (id c : String)
    (up d : EngineOutcome) (r : StackRecord)
    (hex : lookupStack s1 id = some r) (hab : lookupStack s2 id = none) :
    ((createHandler s1 id c up).resp.status = 409
      ∧ (createHandler s1 id c up).calls = [EngineCall.createStackCall id])
    ∧ ((getHandler s2 id).resp.status = 404
      ∧ (getHandler s2 id).calls = [EngineCall.selectStackCall id])
    ∧ ((updateHandler s2 id c up).resp.status = 404
      ∧ (updateHandler s2 id c up).calls = [EngineCall.selectStackCall id])
    ∧ ((deleteHandler s2 id d).resp.status = 404
      ∧ (deleteHandler s2 id d).calls = [EngineCall.selectStackCall id]) := by
  refine ⟨?_, ?_, ?_, ?_⟩
  · simp [createHandler, engineCreateStack, hex, createCatch]
  · simp [getHandler, engineSelectStack, hab, getCatch]
  · simp [updateHandler, engineSelectStack, hab, updateCatch]
  · simp [deleteHandler, engineSelectStack, hab, deleteCatch]

/-- Witness for the amended C4: concrete rejected requests issue exactly
the one failing registry call and nothing else. -/
theorem rejection_before_apply_witness :
    (lookupStack exState "site-a"
        = some ⟨some "hello", [("websiteUrl", "https://u/")]⟩
      ∧ lookupStack emptyState "site-a" = none)
    ∧ (((createHandler exState "site-a" "new" EngineOutcome.ok).resp.status = 409
      ∧ (createHandler exState "site-a" "new" EngineOutcome.ok).calls
          = [EngineCall.createStackCall "site-a"])
    ∧ (((getHandler emptyState "site-a").resp.status = 404
      ∧ (getHandler emptyState "site-a").calls
          = [EngineCall.selectStackCall "site-a"])
    ∧ (((updateHandler emptyState "site-a" "new" EngineOutcome.ok).resp.status = 404
      ∧ (updateHandler emptyState "site-a" "new" EngineOutcome.ok).calls
          = [EngineCall.selectStackCall "site-a"])
    ∧ ((deleteHandler emptyState "site-a" EngineOutcome.ok).resp.status = 404
      ∧ (deleteHandler emptyState "site-a" EngineOutcome.ok).calls
          = [EngineCall.selectStackCall "site-a"])))) :=
  ⟨⟨rfl, rfl⟩, rejection_before_apply exState emptyState "site-a" "new"
    EngineOutcome.ok EngineOutcome.ok
    ⟨some "hello", [("websiteUrl", "https://u/")]⟩ rfl rfl⟩

/-- Counterexample to C5 as stated: after an engine-reported `up` failure
on the existing `site-a`, the entire engine state is identical to the
pre-failure state and a subsequent `get` returns the old outputs with no
trace of any failure — so the failure is not recorded in any retained
`lastError` field of the deployment; it is only surfaced in the 500
response body. -/
theorem update_failure_records_nothing :
    (updateHandler exState "site-a" "c2"
        (EngineOutcome.err (JsError.engineFailure "boom"))).state = exState
    ∧ (updateHandler exState "site-a" "c2"
        (EngineOutcome.err (JsError.engineFailure "boom"))).resp
      = ⟨500, .errorDetail (.engineFailure "boom")⟩
    ∧ (getHandler (updateHandler exState "site-a" "c2"
        (EngineOutcome.err (JsError.engineFailure "boom"))).state "site-a").resp
      = ⟨200, .jsonIdUrl "site-a" "https://u/"⟩ :=
  ⟨rfl, rfl, rfl⟩

/-- C5 (amended): an engine-reported `update` failure is not retried
(exactly one `up` call is issued), the deployment's prior observable
state — content and outputs — is unchanged, and the failure is surfaced
once, in the 500 response body; no `lastError` field is maintained. -/
theorem update_failure_surfaced_once (s : EngineState) (id c msg : String)
    (r : StackRecord) (h : lookupStack s id = some r) :
    (updateHandler s id c (EngineOutcome.err (JsError.engineFailure msg))).resp
      = ⟨500, .errorDetail (.engineFailure msg)⟩
    ∧ (updateHandler s id c (EngineOutcome.err (JsError.engineFailure msg))).state = s
    ∧ lookupStack
        (updateHandler s id c (EngineOutcome.err (JsError.engineFailure msg))).state id
      = some r
    ∧ (updateHandler s id c (EngineOutcome.err (JsError.engineFailure msg))).calls
      = [EngineCall.selectStackCall id,
         EngineCall.setConfigCall "aws:region" "us-west-2",
         EngineCall.upCall id] := by
  simp [updateHandler, engineSelectStack, h, engineUpRun, updateCatch]

/-- Witness for the amended C5: a concrete failed update of `site-a`
responds 500, leaves the record intact, and issued exactly one `up`. -/
theorem update_failure_surfaced_once_witness :
    lookupStack exState "site-a"
      = some ⟨some "hello", [("websiteUrl", "https://u/")]⟩
    ∧ ((updateHandler exState "site-a" "c2"
          (EngineOutcome.err (JsError.engineFailure "boom"))).resp
        = ⟨500, .errorDetail (.engineFailure "boom")⟩
      ∧ (updateHandler exState "site-a" "c2"
          (EngineOutcome.err (JsError.engineFailure "boom"))).state = exState
      ∧ lookupStack (updateHandler exState "site-a" "c2"
          (EngineOutcome.err (JsError.engineFailure "boom"))).state "site-a"
        = some ⟨some "hello", [("websiteUrl", "https://u/")]⟩
      ∧ (updateHandler exState "site-a" "c2"
          (EngineOutcome.err (JsError.engineFailure "boom"))).calls
        = [EngineCall.selectStackCall "site-a",
           EngineCall.setConfigCall "aws:region" "us-west-2",
           EngineCall.upCall "site-a"]) :=
  ⟨rfl, update_failure_surfaced_once exState "site-a" "c2" "boom"
    ⟨some "hello", [("websiteUrl", "https://u/")]⟩ rfl⟩

/-- Creating a fresh identity succeeds: it responds 200 with the engine
URL and registers the deployment with the applied content and the
`websiteUrl` output. -/
theorem createHandler_fresh (s : EngineState) (id c : String)
    (h : lookupStack s id = none) :
    (createHandler s id c EngineOutcome.ok).resp
      = ⟨200, .jsonIdUrl id (engineEndpointUrl id)⟩
    ∧ lookupStack (createHandler s id c EngineOutcome.ok).state id
      = some ⟨some c, [("websiteUrl", engineEndpointUrl id)]⟩ := by
  have h2 : lookupStack ⟨s.stackList ++ [(id, ⟨none, []⟩)]⟩ id = some ⟨none, []⟩ :=
    lookupStack_append_fresh s id ⟨none, []⟩ h
  constructor
  · simp [createHandler, engineCreateStack, h, engineUpRun,
      createPulumiProgram, jsAccess, List.find?]
  · have hstate : (createHandler s id c EngineOutcome.ok).state
        = engineUpdateRecord ⟨s.stackList ++ [(id, ⟨none, []⟩)]⟩ id
            ⟨some c, [("websiteUrl", engineEndpointUrl id)]⟩ := by
      simp [createHandler, engineCreateStack, h, engineUpRun,
        createPulumiProgram, jsAccess, List.find?]
    rw [hstate]
    exact lookupStack_update _ id ⟨none, []⟩ _ h2

/-- C6: a successful `delete` of an existing identity performs engine
teardown (`destroy`) followed by registry removal (`removeStack`),
responds 200 with an empty body, removes the identity from lookup and
from the ids `list()` reports, and a subsequent `create` of the same
identity succeeds exactly as a fresh create. -/
theorem delete_then_reuse (s : EngineState) (id c : String) (r : StackRecord)
    (h : lookupStack s id = some r) :
    (deleteHandler s id EngineOutcome.ok).resp = ⟨200, HttpBody.empty⟩
    ∧ (deleteHandler s id EngineOutcome.ok).calls
        = [EngineCall.selectStackCall id, EngineCall.destroyCall id,
           EngineCall.removeStackCall id]
    ∧ lookupStack (deleteHandler s id EngineOutcome.ok).state id = none
    ∧ (listHandler (deleteHandler s id EngineOutcome.ok).state).resp.body
        = HttpBody.jsonIds
            ((deleteHandler s id EngineOutcome.ok).state.stackList.map Prod.fst)
    ∧ id ∉ (deleteHandler s id EngineOutcome.ok).state.stackList.map Prod.fst
    ∧ (createHandler (deleteHandler s id EngineOutcome.ok).state id c
        EngineOutcome.ok).resp
        = ⟨200, .jsonIdUrl id (engineEndpointUrl id)⟩
    ∧ lookupStack (createHandler (deleteHandler s id EngineOutcome.ok).state id c
        EngineOutcome.ok).state id
        = some ⟨some c, [("websiteUrl", engineEndpointUrl id)]⟩ := by
  have hstate : (deleteHandler s id EngineOutcome.ok).state
      = engineRemoveStack (engineUpdateRecord s id ⟨none, []⟩) id := by
    simp [deleteHandler, engineSelectStack, h, engineDestroyRun]
  have habs : lookupStack (deleteHandler s id EngineOutcome.ok).state id = none := by
    rw [hstate]
    exact lookupStack_remove_self _ id
  refine ⟨?_, ?_, habs, rfl, ?_, (createHandler_fresh _ id c habs).1,
    (createHandler_fresh _ id c habs).2⟩
  · simp [deleteHandler, engineSelectStack, h, engineDestroyRun]
  · simp [deleteHandler, engineSelectStack, h, engineDestroyRun]
  · rw [hstate]
    exact remove_not_mem_ids _ id

/-- Witness for C6: deleting the existing `site-a` responds 200 empty,
removes it, and the following create of `site-a` succeeds afresh. -/
theorem delete_then_reuse_witness :
    lookupStack exState "site-a"
      = some ⟨some "hello", [("websiteUrl", "https://u/")]⟩
    ∧ ((deleteHandler exState "site-a" EngineOutcome.ok).resp = ⟨200, HttpBody.empty⟩
    ∧ (deleteHandler exState "site-a" EngineOutcome.ok).calls
        = [EngineCall.selectStackCall "site-a", EngineCall.destroyCall "site-a",
           EngineCall.removeStackCall "site-a"]
    ∧ lookupStack (deleteHandler exState "site-a" EngineOutcome.ok).state "site-a" = none
    ∧ (listHandler (deleteHandler exState "site-a" EngineOutcome.ok).state).resp.body
        = HttpBody.jsonIds
            ((deleteHandler exState "site-a" EngineOutcome.ok).state.stackList.map Prod.fst)
    ∧ "site-a" ∉ (deleteHandler exState "site-a" EngineOutcome.ok).state.stackList.map Prod.fst
    ∧ (createHandler (deleteHandler exState "site-a" EngineOutcome.ok).state "site-a" "again"
        EngineOutcome.ok).resp
        = ⟨200, .jsonIdUrl "site-a" (engineEndpointUrl "site-a")⟩
    ∧ lookupStack (createHandler (deleteHandler exState "site-a" EngineOutcome.ok).state
        "site-a" "again" EngineOutcome.ok).state "site-a"
        = some ⟨some "again", [("websiteUrl", engineEndpointUrl "site-a")]⟩) :=
  ⟨rfl, delete_then_reuse exState "site-a" "again"
    ⟨some "hello", [("websiteUrl", "https://u/")]⟩ rfl⟩

/-- Checks that in a trace of engine calls, every `up` (apply) call is
immediately preceded by `setConfig("aws:region", "us-west-2")`. -/
def configPrecedesApply : List EngineCall → Bool
  | [] => true
  | EngineCall.upCall _ :: _ => false
  | EngineCall.setConfigCall k v :: EngineCall.upCall _ :: rest =>
      decide (k = "aws:region") && decide (v = "us-west-2")
        && configPrecedesApply rest
  | _ :: rest => configPrecedesApply rest

/-- C7: in every run of the create handler and of the update handler —
the two mutating operations that apply — every `up` call in the engine
call trace is immediately preceded by setting the fixed
`aws:region = us-west-2` configuration parameter on the stack. -/
theorem region_config_before_every_apply (s : EngineState) (id c : String)
    (up : EngineOutcome) :
    configPrecedesApply (createHandler s id c up).calls = true
    ∧ configPrecedesApply (updateHandler s id c up).calls = true := by
  constructor
  · cases h : lookupStack s id with
    | some r =>
      simp [createHandler, engineCreateStack, h, configPrecedesApply, createCatch]
    | none =>
      cases up with
      | ok =>
        simp [createHandler, engineCreateStack, h, engineUpRun,
          createPulumiProgram, jsAccess, List.find?, configPrecedesApply]
      | err e =>
        simp [createHandler, engineCreateStack, h, engineUpRun, configPrecedesApply]
  · cases h : lookupStack s id with
    | some r =>
      cases up with
      | ok =>
        simp [updateHandler, engineSelectStack, h, engineUpRun,
          createPulumiProgram, jsAccess, List.find?, configPrecedesApply]
      | err e =>
        simp [updateHandler, engineSelectStack, h, engineUpRun, configPrecedesApply]
    | none =>
      simp [updateHandler, engineSelectStack, h, configPrecedesApply]

/-- C8: the template binder is a pure, deterministic function of its
content argument alone — its output is independent of the module
environment (the only ambient state in scope), and the content flows into
the produced program verbatim as the blob source. -/
theorem binder_pure_deterministic (env1 env2 : ModuleEnv) (c : String) :
    createPulumiProgram env1 c = createPulumiProgram env2 c
    ∧ (createPulumiProgram env1 c).blobSource = c :=
  ⟨rfl, rfl⟩

/-- C9: the create handler maps a `ConcurrentUpdateError` raised by its
`up` call to 500, while the update and delete handlers map the same error
to 409; and the create handler's catch produces 409 exactly for
`StackAlreadyExistsError`. -/
theorem create_conflict_only_already_exists
    (s1 s2 : EngineState) (id c msg : String) (r : StackRecord) (e : JsError)
    (h1 : lookupStack s1 id = none) (h2 : lookupStack s2 id = some r) :
    (createHandler s1 id c
        (EngineOutcome.err (JsError.concurrentUpdate msg))).resp.status = 500
    ∧ (updateHandler s2 id c
        (EngineOutcome.err (JsError.concurrentUpdate msg))).resp.status = 409
    ∧ (deleteHandler s2 id
        (EngineOutcome.err (JsError.concurrentUpdate msg))).resp.status = 409
    ∧ ((createCatch id e).status = 409 ↔ ∃ m, e = JsError.stackAlreadyExists m) := by
  refine ⟨?_, ?_, ?_, ?_⟩
  · simp [createHandler, engineCreateStack, h1, engineUpRun, createCatch]
  · simp [updateHandler, engineSelectStack, h2, engineUpRun, updateCatch]
  · simp [deleteHandler, engineSelectStack, h2, engineDestroyRun, deleteCatch]
  · cases e <;> simp [createCatch]

/-- Witness for C9: a concurrent-update error during `create` of a fresh
`site-b` yields 500, while the same error during `update`/`delete` of the
existing `site-a` yields 409. -/
theorem create_conflict_only_already_exists_witness :
    (lookupStack emptyState "site-a" = none
      ∧ lookupStack exState "site-a"
        = some ⟨some "hello", [("websiteUrl", "https://u/")]⟩)
    ∧ ((createHandler emptyState "site-a" "c"
        (EngineOutcome.err (JsError.concurrentUpdate "m"))).resp.status = 500
    ∧ (updateHandler exState "site-a" "c"
        (EngineOutcome.err (JsError.concurrentUpdate "m"))).resp.status = 409
    ∧ (deleteHandler exState "site-a"
        (EngineOutcome.err (JsError.concurrentUpdate "m"))).resp.status = 409
    ∧ ((createCatch "site-a" (JsError.concurrentUpdate "m")).status = 409
        ↔ ∃ m, JsError.concurrentUpdate "m" = JsError.stackAlreadyExists m)) :=
  ⟨⟨rfl, rfl⟩, create_conflict_only_already_exists emptyState exState "site-a" "c" "m"
    ⟨some "hello", [("websiteUrl", "https://u/")]⟩
    (JsError.concurrentUpdate "m") rfl rfl⟩

/-- C10: when a deployment exists but its outputs have no `websiteUrl`
entry, `get` does not succeed and is not a not-found: the JavaScript
access `outs.websiteUrl.value` throws a `TypeError`, which the catch maps
to the generic 500 branch; no state changes. -/
theorem get_missing_output_server_error (s : EngineState) (id : String)
    (r : StackRecord) (h : lookupStack s id = some r)
    (hno : r.outputs.find? (fun p => p.1 = "websiteUrl") = none) :
    (getHandler s id).resp
      = ⟨500, .errorDetail (.typeError "Cannot read properties of undefined")⟩
    ∧ (getHandler s id).state = s := by
  simp [getHandler, engineSelectStack, h, jsAccess, hno, getCatch]

/-- Witness for C10: `get` of the registered-but-never-applied `site-a`
(empty outputs) responds 500, not 404 and not success. -/
theorem get_missing_output_server_error_witness :
    (lookupStack noOutputState "site-a" = some ⟨none, []⟩
      ∧ (StackRecord.mk none []).outputs.find? (fun p => p.1 = "websiteUrl") = none)
    ∧ ((getHandler noOutputState "site-a").resp
        = ⟨500, .errorDetail (.typeError "Cannot read properties of undefined")⟩
      ∧ (getHandler noOutputState "site-a").state = noOutputState) :=
  ⟨⟨rfl, rfl⟩, get_missing_output_server_error noOutputState "site-a"
    ⟨none, []⟩ rfl rfl⟩

end PulumiOverHttp
